import Mathlib

/-!
Verification of the delay_time_calculator application (src/main.rs).

Rust f64 values are modelled as exact rationals plus the three non-finite
values (positive infinity, negative infinity, NaN).  All numeric values the
claims touch are exactly representable, so rational arithmetic matches the
user-visible f64 behaviour on every input any theorem below evaluates.
-/

namespace DelayCalc

/-- A Rust f64 value: a finite value (modelled as an exact rational) or one
of the non-finite values. -/
inductive RFloat where
  | finite : ℚ → RFloat
  | posInf : RFloat
  | negInf : RFloat
  | nan : RFloat
deriving DecidableEq, Repr

/-- Numeric value of a list of decimal digit characters, most significant
first (helper for the f64 parsing model). -/
def digitsToNat (l : List Char) : ℕ :=
  l.foldl (fun acc c => 10 * acc + (c.toNat - 48)) 0

/-- Consume an optional leading sign; returns (isNegative, rest). -/
def parseSign : List Char → Bool × List Char
  | '+' :: rest => (false, rest)
  | '-' :: rest => (true, rest)
  | cs => (false, cs)

/-- Parse the optional exponent suffix of the Rust f64 grammar.  Succeeds
with exponent 0 on empty input; otherwise requires the whole remaining
input to be a well-formed exponent. -/
def parseExp : List Char → Option ℤ
  | [] => some 0
  | c :: rest =>
    if c = 'e' ∨ c = 'E' then
      let p := parseSign rest
      let d := p.2.span Char.isDigit
      if d.1 = [] ∨ d.2 ≠ [] then none
      else some (if p.1 then -(digitsToNat d.1 : ℤ) else (digitsToNat d.1 : ℤ))
    else none

/-- Fully decidable description of a successfully parsed f64 literal:
sign, mantissa digits read as a natural number, number of fractional
digits, and decimal exponent; or one of the non-finite keywords. -/
inductive RFloatDesc where
  | finite : Bool → ℕ → ℕ → ℤ → RFloatDesc
  | posInf : RFloatDesc
  | negInf : RFloatDesc
  | nan : RFloatDesc
deriving DecidableEq, Repr

/-- Parse the unsigned number part of the Rust f64 grammar
(Digits '.'? Digits? Exp?  |  '.' Digits Exp?), requiring the whole
input to be consumed; yields (mantissa, fractional length, exponent). -/
def parseNumberCore (cs : List Char) : Option (ℕ × ℕ × ℤ) :=
  let ip := cs.span Char.isDigit
  match ip.2 with
  | '.' :: rest =>
    let fp := rest.span Char.isDigit
    if ip.1 = [] ∧ fp.1 = [] then none
    else
      match parseExp fp.2 with
      | none => none
      | some e => some (digitsToNat (ip.1 ++ fp.1), fp.1.length, e)
  | other =>
    if ip.1 = [] then none
    else
      match parseExp other with
      | none => none
      | some e => some (digitsToNat ip.1, 0, e)

/-- The decidable part of the Rust f64 parse: an optional sign followed by
the case-insensitive keywords inf, infinity or nan, or by a decimal
number with optional exponent. -/
def parseF64Core (s : String) : Option RFloatDesc :=
  let p := parseSign s.data
  let body := p.2.map Char.toLower
  if body = "inf".data ∨ body = "infinity".data then
    some (if p.1 then RFloatDesc.negInf else RFloatDesc.posInf)
  else if body = "nan".data then some RFloatDesc.nan
  else (parseNumberCore p.2).map (fun d => RFloatDesc.finite p.1 d.1 d.2.1 d.2.2)

/-- Numeric value described by a parse description: the signed mantissa
scaled by the fractional length and the decimal exponent. -/
def RFloatDesc.value : RFloatDesc → RFloat
  | RFloatDesc.finite neg m k e =>
    RFloat.finite ((if neg then -(m : ℚ) else (m : ℚ)) / 10 ^ k * 10 ^ e)
  | RFloatDesc.posInf => RFloat.posInf
  | RFloatDesc.negInf => RFloat.negInf
  | RFloatDesc.nan => RFloat.nan

/-- Model of Rust String.parse for f64 as used by Tap::tempo (main.rs line
322).  No positivity or finiteness filtering is performed, exactly as in
the source. -/
def parseF64 (s : String) : Option RFloat := (parseF64Core s).map RFloatDesc.value

/-- The Unit enum of main.rs (lines 41-44). -/
inductive Unit where
  | Milliseconds : Unit
  | Hertz : Unit
deriving DecidableEq, Repr

/-- The Display impl for Unit (main.rs lines 46-53). -/
def Unit.suffixStr : Unit → String
  | Unit.Milliseconds => "ms"
  | Unit.Hertz => "Hz"

/-- The RhythmicModifier enum of main.rs (lines 55-59). -/
inductive RhythmicModifier where
  | Normal : RhythmicModifier
  | Dotted : RhythmicModifier
  | Triplet : RhythmicModifier
deriving DecidableEq, Repr

/-- The NoteValue enum of main.rs (lines 77-86). -/
inductive NoteValue where
  | Whole : NoteValue
  | Half : NoteValue
  | Quarter : NoteValue
  | Eighth : NoteValue
  | Sixteenth : NoteValue
  | ThirtySecond : NoteValue
  | SixtyFourth : NoteValue
  | HundredTwentyEighth : NoteValue
deriving DecidableEq, Repr

/-- The NOT_APPLICABLE sentinel string (main.rs line 15). -/
def NOT_APPLICABLE : String := "N/A"

/-- The ROUND_LIMIT rounding precision (main.rs line 20). -/
def ROUND_LIMIT : ℕ := 3

/-- Rust f64::round: rounds to the nearest integer, half-way cases away
from zero. -/
def rustRoundHalf (q : ℚ) : ℤ :=
  if 0 ≤ q then ⌊q + 1/2⌋ else ⌈q - 1/2⌉

/-- The round crate round(value, scale) used throughout main.rs:
(value * 10^scale).round() / 10^scale, rounding half away from zero. -/
def roundTo (q : ℚ) (scale : ℕ) : ℚ :=
  (rustRoundHalf (q * 10 ^ scale) : ℚ) / 10 ^ scale

/-- Drop trailing zero characters (helper for decimal display). -/
def stripZeros (l : List Char) : List Char :=
  (l.reverse.dropWhile (fun c => c = '0')).reverse

/-- Fractional part renderer: fp (0 < fp < 1000) written as exactly three
zero-padded digits with trailing zeros removed. -/
def fracPart (fp : ℕ) : String :=
  let ds := (Nat.repr fp).data
  ⟨stripZeros (List.replicate (3 - ds.length) '0' ++ ds)⟩

/-- Decimal rendering of n thousandths, e.g. 333333 becomes the string for
333.333 and 120000 the string for 120 (trailing zeros and a trailing dot
are never printed, matching the Rust Display of such f64 values). -/
def milliToString (n : ℤ) : String :=
  let sign := if n < 0 then "-" else ""
  let m := n.natAbs
  let ip := m / 1000
  let fp := m % 1000
  if fp = 0 then sign ++ Nat.repr ip
  else sign ++ Nat.repr ip ++ "." ++ fracPart fp

/-- Rust Display / to_string of a finite f64 whose value is an exact
multiple of 1/1000 (every value the application displays is of this shape
after rounding with ROUND_LIMIT = 3). -/
def ratDisplay (q : ℚ) : String := milliToString (q * 1000).num

/-- round(t, ROUND_LIMIT).to_string() as applied to a parsed tempo in
Tap::update (main.rs lines 154, 165, 171); non-finite values print as
Rust prints them. -/
def rfRoundDisplay : RFloat → String
  | RFloat.finite q => ratDisplay (roundTo q ROUND_LIMIT)
  | RFloat.posInf => "inf"
  | RFloat.negInf => "-inf"
  | RFloat.nan => "NaN"

/-- Modelled from the spec: the beat length of each note value in
quarter-note units (spec section 3), used because the delay_times crate
backing Tap::delay_times is not part of this repository. -/
def noteBeats : NoteValue → ℚ
  | NoteValue.Whole => 4
  | NoteValue.Half => 2
  | NoteValue.Quarter => 1
  | NoteValue.Eighth => 1/2
  | NoteValue.Sixteenth => 1/4
  | NoteValue.ThirtySecond => 1/8
  | NoteValue.SixtyFourth => 1/16
  | NoteValue.HundredTwentyEighth => 1/32

/-- Modelled from the spec: the scale factor of each rhythmic modifier
(spec section 3). -/
def modScale : RhythmicModifier → ℚ
  | RhythmicModifier.Normal => 1
  | RhythmicModifier.Dotted => 3/2
  | RhythmicModifier.Triplet => 2/3

/-- Modelled from the spec: the delay-time conversion engine of the
delay_times crate (not in this repository), following the formulas of
spec section 4.2: milliseconds are (60000 / tempo) * beats * scale and
Hertz are tempo / (60 * beats * scale). -/
def compute (tempo : ℚ) (note : NoteValue) (m : RhythmicModifier) (u : Unit) : ℚ :=
  match u with
  | Unit.Milliseconds => 60000 / tempo * noteBeats note * modScale m
  | Unit.Hertz => tempo / (60 * noteBeats note * modScale m)

/-- Lift of compute to RFloat tempos: non-finite tempos propagate as a
non-finite result (no theorem below evaluates that branch). -/
def computeR (t : RFloat) (note : NoteValue) (m : RhythmicModifier) (u : Unit) : RFloat :=
  match t with
  | RFloat.finite q => RFloat.finite (compute q note m u)
  | _ => RFloat.nan

/-- Modelled from the spec: the session timeout of the tap estimator in
milliseconds (spec section 4.1, recommended default). -/
def SESSION_TIMEOUT_MS : ℚ := 2000

/-- Modelled from the spec: the bounded interval window of the tap
estimator (spec section 4.1, recommended window). -/
def INTERVAL_WINDOW : ℕ := 8

/-- Modelled from the spec: the tap_tempo crate state (not in this
repository) as the ordered timestamps of the current session, most
recent first. -/
structure TapTempo where
  taps : List ℚ
deriving DecidableEq, Repr

/-- TapTempo::new: the empty session. -/
def TapTempo.new : TapTempo := ⟨[]⟩

/-- Modelled from the spec: reset() clears the session entirely. -/
def TapTempo.reset (_ : TapTempo) : TapTempo := ⟨[]⟩

/-- Modelled from the spec: tap_count() is the number of taps recorded in
the current unbroken session. -/
def TapTempo.tapCount (t : TapTempo) : ℕ := t.taps.length

/-- Differences of consecutive entries of a most-recent-first timestamp
list (newest interval first). -/
def consecutiveIntervals : List ℚ → List ℚ
  | a :: b :: rest => (a - b) :: consecutiveIntervals (b :: rest)
  | _ => []

/-- Modelled from the spec: tap(now) (spec section 4.1).  A first tap or a
gap beyond the session timeout starts a fresh session and yields none;
otherwise the tempo is 60000 divided by the mean of the most recent
intervals (window of 8), with degenerate non-positive intervals
discarded, yielding none if no valid interval remains. -/
def TapTempo.tap (t : TapTempo) (now : ℚ) : TapTempo × Option ℚ :=
  match t.taps with
  | [] => (⟨[now]⟩, none)
  | last :: _ =>
    if SESSION_TIMEOUT_MS < now - last then (⟨[now]⟩, none)
    else
      let taps := now :: t.taps
      let valid := ((consecutiveIntervals taps).take INTERVAL_WINDOW).filter
        (fun i => decide (0 < i))
      match valid with
      | [] => (⟨taps⟩, none)
      | l => (⟨taps⟩, some (60000 / (l.sum / (l.length : ℚ))))

/-- The application state (main.rs lines 116-122).  The clipboard handle is
modelled as availability paired with the last value written to it. -/
structure Tap where
  tap_tempo : TapTempo
  tempo_input_text : String
  unit : Unit
  clipboard : Option (Option RFloat)
deriving DecidableEq

/-- The Message enum (main.rs lines 124-135).  Tap carries the monotonic
timestamp the environment supplies to the estimator at handling time. -/
inductive Message where
  | Tap : ℚ → Message
  | Reset : Message
  | StoreTempoText : String → Message
  | StoreTempo : Message
  | ModifyTempo : (RFloat → RFloat) → Message
  | StoreUnit : Unit → Message
  | CopyToClipboard : RFloat → Message

/-- Tap::tempo (main.rs lines 321-323): parse the tempo input text as an
f64, discarding only parse errors. -/
def Tap.tempo (s : Tap) : Option RFloat := parseF64 s.tempo_input_text

/-- Tap::update (main.rs lines 151-185). -/
def Tap.update (s : Tap) : Message → Tap
  | Message.Tap now =>
    let r := s.tap_tempo.tap now
    match r.2 with
    | some tempo =>
      { s with tap_tempo := r.1,
               tempo_input_text := ratDisplay (roundTo tempo ROUND_LIMIT) }
    | none => { s with tap_tempo := r.1, tempo_input_text := NOT_APPLICABLE }
  | Message.Reset => { s with tap_tempo := s.tap_tempo.reset }
  | Message.StoreTempoText t => { s with tempo_input_text := t }
  | Message.StoreTempo =>
    match s.tempo with
    | some tempo => { s with tempo_input_text := rfRoundDisplay tempo }
    | none => s
  | Message.ModifyTempo f =>
    match s.tempo with
    | some tempo => { s with tempo_input_text := rfRoundDisplay (f tempo) }
    | none => s
  | Message.StoreUnit u => { s with unit := u }
  | Message.CopyToClipboard v =>
    { s with clipboard := s.clipboard.map (fun _ => some v) }

/-- Tap::delay_times combined with the per-note field selection of
Tap::values_column (main.rs lines 278-288 and 306-319): the raw value of
one table cell, present exactly when the tempo text parses. -/
def Tap.delayValue (s : Tap) (m : RhythmicModifier) (n : NoteValue) : Option RFloat :=
  (Tap.tempo s).map (fun t => computeR t n m s.unit)

/-- The display text of one table cell (main.rs lines 290-292): the raw
value rounded with round(value, ROUND_LIMIT) followed by a space and the
unit suffix, or NOT_APPLICABLE when no tempo is available. -/
def Tap.cellDisplay (s : Tap) (m : RhythmicModifier) (n : NoteValue) : String :=
  match s.delayValue m n with
  | some v => rfRoundDisplay v ++ " " ++ Unit.suffixStr s.unit
  | none => NOT_APPLICABLE

/-- The on-press message of one table cell button (main.rs lines 294-298):
CopyToClipboard of the raw value, attached only when a value and a
clipboard are both present. -/
def Tap.cellOnPress (s : Tap) (m : RhythmicModifier) (n : NoteValue) : Option Message :=
  match s.delayValue m n, s.clipboard with
  | some v, some _ => some (Message.CopyToClipboard v)
  | _, _ => none

/-- Default for Tap (main.rs lines 137-148): tempo 120.0 rendered to text,
Milliseconds, a fresh estimator; clipboard availability depends on the
environment (Clipboard::new().ok()) and is therefore a parameter. -/
def Tap.defaultWith (clip : Option (Option RFloat)) : Tap :=
  { tap_tempo := TapTempo.new
    tempo_input_text := ratDisplay 120
    unit := Unit.Milliseconds
    clipboard := clip }

/-- Written from the spec wording of section 4.3 for comparison with the
code: round the value to 3 fractional digits using round-half-away-from-
zero (negative values round away from zero too), then append a single
space and the unit short suffix, ms or Hz. -/
def specRoundHalfAwayInt (q : ℚ) : ℤ :=
  if q < 0 then -⌊-q + 1/2⌋ else ⌊q + 1/2⌋

/-- Written from the spec wording of section 4.3: format_value. -/
def format_value (v : ℚ) (u : Unit) : String :=
  ratDisplay ((specRoundHalfAwayInt (v * 10 ^ (3 : ℕ)) : ℚ) / 10 ^ (3 : ℕ)) ++ " " ++
    (match u with
     | Unit.Milliseconds => "ms"
     | Unit.Hertz => "Hz")

/-! ## Helper lemmas -/

/-- Evaluation helper: a parse whose decidable core succeeds with a finite
description yields the corresponding rational value. -/
theorem parseF64_eq_finite (s : String) (neg : Bool) (m k : ℕ) (e : ℤ) (q : ℚ)
    (hcore : parseF64Core s = some (RFloatDesc.finite neg m k e))
    (hval : (if neg then -(m : ℚ) else (m : ℚ)) / 10 ^ k * 10 ^ e = q) :
    parseF64 s = some (RFloat.finite q) := by
  simp [parseF64, hcore, RFloatDesc.value, hval]

/-- Evaluation helper: display of a rational via its thousandths. -/
theorem ratDisplay_eq (q : ℚ) (n : ℤ) (h : q * 1000 = (n : ℚ)) :
    ratDisplay q = milliToString n := by
  simp [ratDisplay, h]

/-- The tempo 120.0 renders as the text 120, as in Default for Tap. -/
theorem ratDisplay_120 : ratDisplay 120 = "120" := by
  rw [ratDisplay_eq 120 120000 (by norm_num)]; decide

/-- parse of the text 120 yields the finite value 120. -/
theorem parseF64_120 : parseF64 "120" = some (RFloat.finite 120) :=
  parseF64_eq_finite "120" false 120 0 0 120 (by decide) (by norm_num)

/-- parse of the text -5 succeeds with the finite value -5 (the code has no
positivity filter). -/
theorem parseF64_neg5 : parseF64 "-5" = some (RFloat.finite (-5)) :=
  parseF64_eq_finite "-5" true 5 0 0 (-5) (by decide) (by norm_num)

/-- The default state parses to tempo 120 whatever the clipboard did. -/
theorem tempo_defaultWith (clip : Option (Option RFloat)) :
    Tap.tempo (Tap.defaultWith clip) = some (RFloat.finite 120) := by
  simp only [Tap.tempo, Tap.defaultWith, ratDisplay_120, parseF64_120]

/-- A cell whose tempo parses carries the raw computed value. -/
theorem delayValue_some (s : Tap) (m : RhythmicModifier) (n : NoteValue) (t : RFloat)
    (h : Tap.tempo s = some t) : s.delayValue m n = some (computeR t n m s.unit) := by
  simp [Tap.delayValue, h]

/-- The Rust rounding (floor for nonnegative, ceiling shifted for negative)
agrees with the round-half-away-from-zero description of the spec. -/
theorem rustRoundHalf_eq_spec (q : ℚ) : rustRoundHalf q = specRoundHalfAwayInt q := by
  unfold rustRoundHalf specRoundHalfAwayInt
  rcases le_or_lt 0 q with h | h
  · rw [if_pos h, if_neg (not_lt.2 h)]
  · rw [if_neg (not_le.2 h), if_pos h, show q - 1/2 = -(-q + 1/2) by ring, Int.ceil_neg]

/-- A cell string always ends in the unit suffix, hence is never the
sentinel. -/
theorem suffix_ne_sentinel (x : String) (u : Unit) :
    x ++ " " ++ Unit.suffixStr u ≠ NOT_APPLICABLE := by
  intro h
  have hd := congrArg String.data h
  rw [String.data_append, String.data_append] at hd
  have hmem : ' ' ∈ (x.data ++ " ".data) ++ (Unit.suffixStr u).data :=
    List.mem_append.mpr (Or.inl (List.mem_append.mpr (Or.inr (by decide))))
  rw [hd] at hmem
  exact absurd hmem (by decide)

/-- No note value has beat length zero. -/
theorem noteBeats_ne_zero (n : NoteValue) : noteBeats n ≠ 0 := by
  cases n <;> norm_num [noteBeats]

/-- No rhythmic modifier has scale zero. -/
theorem modScale_ne_zero (m : RhythmicModifier) : modScale m ≠ 0 := by
  cases m <;> norm_num [modScale]

/-- Core algebra of the ms and Hz formulas: their product is 1000 for any
nonzero tempo, beat length and scale. -/
theorem ms_hz_core (T b sc : ℚ) (hT : T ≠ 0) (hb : b ≠ 0) (hsc : sc ≠ 0) :
    60000 / T * b * sc * (T / (60 * b * sc)) = 1000 := by
  field_simp
  ring

/-! ## Claim theorems -/

/-- C1 counterexample: the claim says parsing the text -5 yields None, but
Tap::tempo performs a bare parse with no positivity filter, so the
text -5 parses to Some(-5.0). -/
theorem c1_counterexample : parseF64 "-5" = some (RFloat.finite (-5)) := parseF64_neg5

/-- C1 (amended): parsing tempo text returns None exactly on parse
failure; non-positive and non-finite parsed values are passed through.
In particular the texts abc and the empty text yield None, the text 120
yields Some(120.0), the text -5 yields Some(-5.0), the text 0 yields
Some(0.0) and the text inf yields Some(positive infinity). -/
theorem c1_parse_behaviour :
    parseF64 "abc" = none ∧ parseF64 "" = none ∧
    parseF64 "120" = some (RFloat.finite 120) ∧
    parseF64 "-5" = some (RFloat.finite (-5)) ∧
    parseF64 "0" = some (RFloat.finite 0) ∧
    parseF64 "inf" = some RFloat.posInf :=
  ⟨by decide, by decide, parseF64_120, parseF64_neg5,
   parseF64_eq_finite "0" false 0 0 0 0 (by decide) (by norm_num), by decide⟩

/-- C2 counterexample: with the non-positive tempo text -5 the claim says
every cell renders the sentinel, but the Quarter/Normal milliseconds cell
renders the numeric string for -12000 ms. -/
theorem c2_counterexample :
    Tap.cellDisplay ⟨TapTempo.new, "-5", Unit.Milliseconds, none⟩
      RhythmicModifier.Normal NoteValue.Quarter = "-12000 ms" := by
  have hv : compute (-5) NoteValue.Quarter RhythmicModifier.Normal Unit.Milliseconds = -12000 := by
    norm_num [compute, noteBeats, modScale]
  have hr : roundTo (-12000) ROUND_LIMIT = -12000 := by
    rw [roundTo, rustRoundHalf_eq_spec]
    norm_num [specRoundHalfAwayInt, ROUND_LIMIT]
  have hs : ratDisplay (-12000) = "-12000" := by
    rw [ratDisplay_eq _ (-12000000) (by norm_num)]; decide
  simp [Tap.cellDisplay, Tap.delayValue, Tap.tempo, parseF64_neg5, computeR, hv,
    rfRoundDisplay, hr, hs, Unit.suffixStr]

/-- C2 (amended): whenever the tempo text fails to parse as an f64 (so
Tap::tempo yields None), every one of the 24 table cells renders the
sentinel and no error is propagated; non-positive parsed values are not
filtered and render numerically instead. -/
theorem c2_cells_sentinel (s : Tap) (m : RhythmicModifier) (n : NoteValue)
    (h : Tap.tempo s = none) : s.cellDisplay m n = NOT_APPLICABLE := by
  simp [Tap.cellDisplay, Tap.delayValue, h]

/-- C2 witness: a concrete unparseable state renders the sentinel. -/
theorem c2_cells_sentinel_witness :
    Tap.tempo ⟨TapTempo.new, "abc", Unit.Milliseconds, none⟩ = none ∧
    Tap.cellDisplay ⟨TapTempo.new, "abc", Unit.Milliseconds, none⟩
      RhythmicModifier.Normal NoteValue.Quarter = NOT_APPLICABLE :=
  ⟨by decide, c2_cells_sentinel _ RhythmicModifier.Normal NoteValue.Quarter (by decide)⟩

/-- C3: for every tempo T > 0, note value and modifier, the milliseconds
result times the Hertz result equals 1000 (exactly, in the rational model
of f64 values). -/
theorem c3_ms_hz_product (T : ℚ) (n : NoteValue) (m : RhythmicModifier) (hT : 0 < T) :
    compute T n m Unit.Milliseconds * compute T n m Unit.Hertz = 1000 := by
  simp only [compute]
  exact ms_hz_core T (noteBeats n) (modScale m) (ne_of_gt hT)
    (noteBeats_ne_zero n) (modScale_ne_zero m)

/-- C3 witness at tempo 120, Quarter, Normal. -/
theorem c3_ms_hz_product_witness :
    compute 120 NoteValue.Quarter RhythmicModifier.Normal Unit.Milliseconds *
      compute 120 NoteValue.Quarter RhythmicModifier.Normal Unit.Hertz = 1000 :=
  c3_ms_hz_product 120 NoteValue.Quarter RhythmicModifier.Normal (by norm_num)

/-- C4: for every tempo T > 0 the Quarter/Normal milliseconds value is
60000 / T exactly; at tempo 120 the Quarter/Normal value is 500 ms, the
Eighth/Normal value 250 ms, the Quarter/Dotted value 750 ms, and the
Quarter/Triplet value rounds to the displayed 333.333 ms. -/
theorem c4_reference_values (T : ℚ) (_hT : 0 < T) :
    compute T NoteValue.Quarter RhythmicModifier.Normal Unit.Milliseconds = 60000 / T ∧
    compute 120 NoteValue.Quarter RhythmicModifier.Normal Unit.Milliseconds = 500 ∧
    compute 120 NoteValue.Eighth RhythmicModifier.Normal Unit.Milliseconds = 250 ∧
    compute 120 NoteValue.Quarter RhythmicModifier.Dotted Unit.Milliseconds = 750 ∧
    roundTo (compute 120 NoteValue.Quarter RhythmicModifier.Triplet Unit.Milliseconds)
      ROUND_LIMIT = 333333 / 1000 := by
  refine ⟨?_, ?_, ?_, ?_, ?_⟩
  · simp [compute, noteBeats, modScale]
  · norm_num [compute, noteBeats, modScale]
  · norm_num [compute, noteBeats, modScale]
  · norm_num [compute, noteBeats, modScale]
  · norm_num [compute, noteBeats, modScale, roundTo, rustRoundHalf, ROUND_LIMIT]

/-- C4 witness at T = 120. -/
theorem c4_reference_values_witness :
    compute 120 NoteValue.Quarter RhythmicModifier.Normal Unit.Milliseconds = 60000 / 120 ∧
    compute 120 NoteValue.Quarter RhythmicModifier.Normal Unit.Milliseconds = 500 ∧
    compute 120 NoteValue.Eighth RhythmicModifier.Normal Unit.Milliseconds = 250 ∧
    compute 120 NoteValue.Quarter RhythmicModifier.Dotted Unit.Milliseconds = 750 ∧
    roundTo (compute 120 NoteValue.Quarter RhythmicModifier.Triplet Unit.Milliseconds)
      ROUND_LIMIT = 333333 / 1000 :=
  c4_reference_values 120 (by norm_num)

/-- C5 counterexample: in Hertz the Dotted cell is NOT the Normal cell
times 1.5; at tempo 120 for the Quarter note the Normal Hertz value is 2
while the Dotted Hertz value is 4/3, not 3. -/
theorem c5_counterexample :
    compute 120 NoteValue.Quarter RhythmicModifier.Dotted Unit.Hertz ≠
      compute 120 NoteValue.Quarter RhythmicModifier.Normal Unit.Hertz * (3 / 2) := by
  norm_num [compute, noteBeats, modScale]

/-- C5 (amended): in Milliseconds the Dotted cell is the Normal cell times
1.5 and the Triplet cell the Normal cell times 2/3 for every note value
and tempo; in Hertz, because frequency is the reciprocal unit, the Dotted
cell is the Normal cell divided by 1.5 and the Triplet cell the Normal
cell divided by 2/3. -/
theorem c5_modifier_scaling (T : ℚ) (n : NoteValue) :
    compute T n RhythmicModifier.Dotted Unit.Milliseconds =
      compute T n RhythmicModifier.Normal Unit.Milliseconds * (3 / 2) ∧
    compute T n RhythmicModifier.Triplet Unit.Milliseconds =
      compute T n RhythmicModifier.Normal Unit.Milliseconds * (2 / 3) ∧
    compute T n RhythmicModifier.Dotted Unit.Hertz =
      compute T n RhythmicModifier.Normal Unit.Hertz / (3 / 2) ∧
    compute T n RhythmicModifier.Triplet Unit.Hertz =
      compute T n RhythmicModifier.Normal Unit.Hertz / (2 / 3) := by
  cases n <;>
    · refine ⟨?_, ?_, ?_, ?_⟩ <;>
        · simp only [compute, noteBeats, modScale]
          ring

/-- C6: every finite displayed cell string is exactly the spec formatter:
the value rounded to 3 fractional digits half away from zero, a single
space, and the unit short suffix. -/
theorem c6_cell_format (s : Tap) (m : RhythmicModifier) (n : NoteValue) (v : ℚ)
    (h : s.delayValue m n = some (RFloat.finite v)) :
    s.cellDisplay m n = format_value v s.unit := by
  have hr : roundTo v ROUND_LIMIT =
      ((specRoundHalfAwayInt (v * 10 ^ (3 : ℕ)) : ℤ) : ℚ) / 10 ^ (3 : ℕ) := by
    rw [roundTo, ROUND_LIMIT, rustRoundHalf_eq_spec]
  cases hu : s.unit <;>
    simp [Tap.cellDisplay, h, rfRoundDisplay, format_value, hr, Unit.suffixStr, hu]

/-- C6 witness at the startup state, Quarter/Normal. -/
theorem c6_cell_format_witness :
    (Tap.defaultWith none).delayValue RhythmicModifier.Normal NoteValue.Quarter =
      some (RFloat.finite
        (compute 120 NoteValue.Quarter RhythmicModifier.Normal Unit.Milliseconds)) ∧
    (Tap.defaultWith none).cellDisplay RhythmicModifier.Normal NoteValue.Quarter =
      format_value (compute 120 NoteValue.Quarter RhythmicModifier.Normal Unit.Milliseconds)
        Unit.Milliseconds := by
  have hd : (Tap.defaultWith none).delayValue RhythmicModifier.Normal NoteValue.Quarter =
      some (RFloat.finite
        (compute 120 NoteValue.Quarter RhythmicModifier.Normal Unit.Milliseconds)) := by
    rw [delayValue_some _ _ _ _ (tempo_defaultWith none)]
    rfl
  have hu : (Tap.defaultWith none).unit = Unit.Milliseconds := rfl
  exact ⟨hd, hu ▸ c6_cell_format _ _ _ _ hd⟩

/-- C7: whenever a Tap message is handled and the tap estimator yields no
tempo, the tempo field is set to the sentinel string and nothing fails. -/
theorem c7_tap_none_sentinel (s : Tap) (now : ℚ)
    (h : (TapTempo.tap s.tap_tempo now).2 = none) :
    (Tap.update s (Message.Tap now)).tempo_input_text = NOT_APPLICABLE := by
  simp [Tap.update, h]

/-- C7 witness: the very first tap of a fresh session yields the sentinel. -/
theorem c7_tap_none_sentinel_witness :
    (TapTempo.tap (TapTempo.new) 0).2 = none ∧
    (Tap.update ⟨TapTempo.new, "120", Unit.Milliseconds, none⟩
      (Message.Tap 0)).tempo_input_text = NOT_APPLICABLE :=
  ⟨by decide, c7_tap_none_sentinel _ 0 (by decide)⟩

/-- C8: the copy-to-clipboard message attached to a cell button carries
the raw unrounded value produced by the conversion engine for that cell,
while the display string of the same cell is the rounded rendering. -/
theorem c8_clipboard_raw (s : Tap) (m : RhythmicModifier) (n : NoteValue)
    (t : RFloat) (c : Option RFloat)
    (ht : Tap.tempo s = some t) (hc : s.clipboard = some c) :
    s.cellOnPress m n = some (Message.CopyToClipboard (computeR t n m s.unit)) ∧
    s.cellDisplay m n = rfRoundDisplay (computeR t n m s.unit) ++ " " ++
      Unit.suffixStr s.unit := by
  constructor
  · simp [Tap.cellOnPress, Tap.delayValue, ht, hc]
  · simp [Tap.cellDisplay, Tap.delayValue, ht]

/-- C8 witness: at the startup state with a clipboard, the Quarter/Normal
cell press message carries the raw value 500. -/
theorem c8_clipboard_raw_witness :
    (Tap.defaultWith (some none)).cellOnPress RhythmicModifier.Normal NoteValue.Quarter =
      some (Message.CopyToClipboard (RFloat.finite 500)) := by
  have h := (c8_clipboard_raw (Tap.defaultWith (some none)) RhythmicModifier.Normal
    NoteValue.Quarter (RFloat.finite 120) none (tempo_defaultWith (some none)) rfl).1
  have hv : computeR (RFloat.finite 120) NoteValue.Quarter RhythmicModifier.Normal
      (Tap.defaultWith (some none)).unit = RFloat.finite 500 := by
    show computeR (RFloat.finite 120) NoteValue.Quarter RhythmicModifier.Normal
      Unit.Milliseconds = RFloat.finite 500
    norm_num [computeR, compute, noteBeats, modScale]
  rw [hv] at h
  exact h

/-- C9: when the tempo text does not parse, handling any ModifyTempo
message (halve, double, arrow increments, space rounding) or a StoreTempo
message leaves the whole state unchanged. -/
theorem c9_frame_unparseable (s : Tap) (f : RFloat → RFloat)
    (h : Tap.tempo s = none) :
    Tap.update s (Message.ModifyTempo f) = s ∧ Tap.update s Message.StoreTempo = s := by
  constructor <;> simp [Tap.update, h]

/-- C9 witness at a concrete unparseable state and the identity modifier. -/
theorem c9_frame_unparseable_witness :
    Tap.tempo ⟨TapTempo.new, "abc", Unit.Milliseconds, none⟩ = none ∧
    (Tap.update ⟨TapTempo.new, "abc", Unit.Milliseconds, none⟩
        (Message.ModifyTempo (fun t => t)) =
      (⟨TapTempo.new, "abc", Unit.Milliseconds, none⟩ : Tap) ∧
    Tap.update ⟨TapTempo.new, "abc", Unit.Milliseconds, none⟩ Message.StoreTempo =
      (⟨TapTempo.new, "abc", Unit.Milliseconds, none⟩ : Tap)) :=
  ⟨by decide, c9_frame_unparseable _ (fun t => t) (by decide)⟩

/-- C10: whatever the environment decides about the clipboard, the default
state has tempo text 120 and unit Milliseconds, and every one of the 24
startup cells shows a numeric string, never the sentinel. -/
theorem c10_default_state (clip : Option (Option RFloat)) :
    (Tap.defaultWith clip).tempo_input_text = "120" ∧
    (Tap.defaultWith clip).unit = Unit.Milliseconds ∧
    ∀ (m : RhythmicModifier) (n : NoteValue),
      (Tap.defaultWith clip).cellDisplay m n ≠ NOT_APPLICABLE := by
  refine ⟨ratDisplay_120, rfl, fun m n => ?_⟩
  rw [Tap.cellDisplay, delayValue_some _ _ _ _ (tempo_defaultWith clip)]
  exact suffix_ne_sentinel _ _

end DelayCalc
